import Mathlib

/-! # Inferior control of the debugger server

A shallow embedding of `backends/server/powerpc-darwin.c`,
`backends/server/server.c` and the method-load callbacks of
`runtime/metadata/mono-debug-debugger.c`.

Conventions of the embedding:

* a C `int` is an `Int`, a `guint32`/`guint64` is a `Nat`; the conversions the
  C code performs implicitly are written out (`toGuint32`, `toGuint64`,
  `toInt32`);
* a pointer argument that the C function writes through (`*arg`, `*status_ret`,
  the `ServerHandle`) is passed in and returned explicitly;
* what the operating system answers to a call is an argument of the function
  (an oracle for `ptrace`/`vm_read`, a queue of outcomes for `waitpid`);
* constants and macros that come from headers which are not part of the
  sources (`<sys/wait.h>`, `<signal.h>`, `<errno.h>`, `server.h`) are
  parameters.
-/

namespace Debugger

/-! ## Integer conversions of C -/

/-- Conversion of a C `int` to `guint32`. -/
def toGuint32 (i : Int) : Nat := (i % 4294967296).toNat

/-- Conversion of a C `int` to `guint64` (sign extension, then reduction). -/
def toGuint64 (i : Int) : Nat := (i % 18446744073709551616).toNat

/-- Conversion of an unsigned value to a 32-bit C `int` (two's complement). -/
def toInt32 (n : Nat) : Int :=
  if n % 4294967296 < 2147483648 then ((n % 4294967296 : Nat) : Int)
  else ((n % 4294967296 : Nat) : Int) - 4294967296

/-! ## Enumerations of `server.h` -/

/-- Kinds of the asynchronous status message. -/
inductive ServerStatusMessageType where
  | MESSAGE_CHILD_STOPPED
  | MESSAGE_CHILD_EXITED
  | MESSAGE_CHILD_SIGNALED
  | MESSAGE_UNKNOWN_ERROR
  deriving DecidableEq, Repr

/-- Result codes of a command. -/
inductive ServerCommandError where
  | COMMAND_ERROR_NONE
  | COMMAND_ERROR_INVALID_COMMAND
  | COMMAND_ERROR_FORK
  | COMMAND_ERROR_NOT_STOPPED
  | COMMAND_ERROR_MEMORY_ACCESS
  | COMMAND_ERROR_UNKNOWN
  deriving DecidableEq, Repr

open ServerStatusMessageType ServerCommandError

/-! ## Wait statuses -/

/-- The status macros of `<sys/wait.h>` and the two signal numbers of
`<signal.h>` that `powerpc_dispatch_event` uses.  The status is the `guint32`
the function receives; the macros yield C `int`s. -/
structure WaitEncoding where
  WIFSTOPPED : Nat → Bool
  WSTOPSIG : Nat → Int
  WIFEXITED : Nat → Bool
  WEXITSTATUS : Nat → Int
  WIFSIGNALED : Nat → Bool
  WTERMSIG : Nat → Int
  SIGTRAP : Int
  SIGSTOP : Int

/-- The BSD encoding of wait statuses (low seven bits 0177 for a stop, 0 for
an exit, the signal otherwise; the next byte holds the stop signal or the exit
code), with the BSD numbers of SIGTRAP and SIGSTOP.  Used for the concrete
instances only. -/
def bsdWait : WaitEncoding where
  WIFSTOPPED := fun x => decide (x % 128 = 127)
  WSTOPSIG := fun x => toInt32 x / 256
  WIFEXITED := fun x => decide (x % 128 = 0)
  WEXITSTATUS := fun x => (toInt32 x / 256) % 256
  WIFSIGNALED := fun x => decide (x % 128 ≠ 127) && decide (x % 128 ≠ 0)
  WTERMSIG := fun x => ((x % 128 : Nat) : Int)
  SIGTRAP := 5
  SIGSTOP := 17

/-! ## The handles -/

/-- The C `struct InferiorHandle`. -/
structure InferiorHandle where
  pid : Int
  task : Nat
  thread : Nat
  pagesize : Int
  last_signal : Int
  deriving DecidableEq, Repr

/-- The register snapshot kept in the architecture context. -/
abbrev ArchInfo := List Nat

/-- The C `ServerHandle`: breakpoint manager reference, inferior handle and
architecture context. -/
structure ServerHandle where
  bpm : Nat
  inferior : InferiorHandle
  arch : ArchInfo
  deriving DecidableEq, Repr

/-- Modelled from the spec: `powerpc_arch_get_registers` is defined in
`powerpc-arch.c`, which is not among the sources.  Section 4.1 of the spec:
register access has no side effects beyond populating the cached register
snapshot of the handle.  `fetch` is what the register fetch of the operating
system leaves in the snapshot. -/
def powerpc_arch_get_registers (fetch : ServerHandle → ArchInfo) (handle : ServerHandle) :
    ServerHandle :=
  { handle with arch := fetch handle }

/-! ## `powerpc_dispatch_event` -/

/-- What `powerpc_dispatch_event` leaves behind: the handle, the returned
message kind and the three output cells. -/
structure DispatchResult where
  handle : ServerHandle
  message : ServerStatusMessageType
  arg : Nat
  data1 : Nat
  data2 : Nat
  deriving DecidableEq, Repr

/-- The C function `powerpc_dispatch_event`. -/
def powerpc_dispatch_event (w : WaitEncoding) (fetch : ServerHandle → ArchInfo)
    (handle : ServerHandle) (status : Nat) : DispatchResult :=
  -- *arg = *data1 = *data2 = 0;
  if w.WIFSTOPPED status then
    let handle := powerpc_arch_get_registers fetch handle
    if w.WSTOPSIG status = w.SIGTRAP then
      { handle := { handle with inferior := { handle.inferior with last_signal := 0 } },
        message := MESSAGE_CHILD_STOPPED, arg := 0, data1 := 0, data2 := 0 }
    else
      let last_signal : Int :=
        if w.WSTOPSIG status = w.SIGSTOP then 0 else w.WSTOPSIG status
      { handle := { handle with inferior := { handle.inferior with last_signal := last_signal } },
        message := MESSAGE_CHILD_STOPPED, arg := toGuint64 last_signal, data1 := 0, data2 := 0 }
  else if w.WIFEXITED status then
    { handle := handle, message := MESSAGE_CHILD_EXITED,
      arg := toGuint64 (w.WEXITSTATUS status), data1 := 0, data2 := 0 }
  else if w.WIFSIGNALED status then
    { handle := handle, message := MESSAGE_CHILD_SIGNALED,
      arg := toGuint64 (w.WTERMSIG status), data1 := 0, data2 := 0 }
  else
    { handle := handle, message := MESSAGE_UNKNOWN_ERROR, arg := 0, data1 := 0, data2 := 0 }

/-! ## `powerpc_continue` and `powerpc_step` -/

/-- The two `ptrace` requests used to resume the inferior. -/
inductive PtraceRequest where
  | PT_CONTINUE
  | PT_STEP
  deriving DecidableEq, Repr

/-- The arguments of one `ptrace (request, pid, addr, data)` call. -/
structure PtraceCall where
  request : PtraceRequest
  pid : Int
  addr : Nat
  data : Int
  deriving DecidableEq, Repr

/-- What a `ptrace` call answers: its return value and the value of `errno`
after the call (the callers set `errno = 0` right before it). -/
structure PtraceResult where
  ret : Int
  errno : Int
  deriving DecidableEq, Repr

/-- What a resume operation leaves behind: the returned code, the handle and
the `ptrace` calls it made, in order. -/
structure ResumeResult where
  result : ServerCommandError
  handle : ServerHandle
  calls : List PtraceCall
  deriving DecidableEq, Repr

/-- The C function `powerpc_continue`; `ESRCH` is the constant of `<errno.h>`. -/
def powerpc_continue (ESRCH : Int) (ptrace : PtraceCall → PtraceResult)
    (handle : ServerHandle) : ResumeResult :=
  let inferior := handle.inferior
  let call : PtraceCall :=
    { request := PtraceRequest.PT_CONTINUE, pid := inferior.pid, addr := 1,
      data := inferior.last_signal }
  let r := ptrace call
  if r.ret ≠ 0 then
    if r.errno = ESRCH then
      { result := COMMAND_ERROR_NOT_STOPPED, handle := handle, calls := [call] }
    else
      { result := COMMAND_ERROR_UNKNOWN, handle := handle, calls := [call] }
  else
    { result := COMMAND_ERROR_NONE, handle := handle, calls := [call] }

/-- The C function `powerpc_step`. -/
def powerpc_step (ESRCH : Int) (ptrace : PtraceCall → PtraceResult)
    (handle : ServerHandle) : ResumeResult :=
  let inferior := handle.inferior
  let call : PtraceCall :=
    { request := PtraceRequest.PT_STEP, pid := inferior.pid, addr := 1,
      data := inferior.last_signal }
  let r := ptrace call
  if r.ret ≠ 0 then
    if r.errno = ESRCH then
      { result := COMMAND_ERROR_NOT_STOPPED, handle := handle, calls := [call] }
    else
      { result := COMMAND_ERROR_UNKNOWN, handle := handle, calls := [call] }
  else
    { result := COMMAND_ERROR_NONE, handle := handle, calls := [call] }

/-! ## `read_memory_remainder` and `powerpc_read_memory` -/

/-- What `vm_read (task, addr, size, &data, &count)` answers: the kernel
return code, the region `data` points to afterwards (one byte per element) and
the value stored in `count`. -/
structure VmReadResult where
  kret : Int
  data : List Nat
  count : Int
  deriving DecidableEq, Repr

/-- What a memory read leaves behind: the returned code and the content of
the caller's buffer.  `none` stands for a copy that leaves the region handed
back by `vm_read` or the buffer itself, for which C defines no content. -/
structure ReadMemoryResult where
  result : ServerCommandError
  buffer : Option (List Nat)
  deriving DecidableEq, Repr

/-- The C library call `memcpy (dst, src, n)` on byte lists: the first `n` bytes
of `dst` are replaced by the first `n` bytes of `src`. -/
def memcpy (dst src : List Nat) (n : Nat) : Option (List Nat) :=
  if n ≤ src.length ∧ n ≤ dst.length then some (src.take n ++ dst.drop n) else none

/-- The C function `read_memory_remainder`.  `addr` is a `vm_address_t`
(32 bits unsigned on this target), `size` an `int`.  The page size is the one
stored by `host_page_size` and is positive; for a page size of zero C leaves
the remainder undefined and this definition follows the remainder of `Nat`. -/
def read_memory_remainder (KERN_SUCCESS : Int) (vm_read : Nat → Nat → Nat → VmReadResult)
    (inferior : InferiorHandle) (addr : Nat) (size : Int) (buffer : List Nat) :
    ReadMemoryResult :=
  let offset : Int := toInt32 (addr % toGuint32 inferior.pagesize)
  let addr : Nat := toGuint32 ((addr : Int) - offset)
  let r := vm_read inferior.task addr (toGuint32 inferior.pagesize)
  if r.kret ≠ KERN_SUCCESS ∨ r.count ≠ inferior.pagesize then
    { result := COMMAND_ERROR_MEMORY_ACCESS, buffer := some buffer }
  else
    { result := COMMAND_ERROR_NONE,
      buffer := if offset < 0 then none
                else memcpy buffer (r.data.drop offset.toNat) (toGuint32 size) }

/-- The C function `powerpc_read_memory`: `start` is a `guint64`, `size` a
`guint32`.  The handle is returned as it was passed. -/
def powerpc_read_memory (KERN_SUCCESS : Int) (vm_read : Nat → Nat → Nat → VmReadResult)
    (handle : ServerHandle) (start : Nat) (size : Nat) (buffer : List Nat) :
    ServerHandle × ReadMemoryResult :=
  let addr : Nat := start % 4294967296
  (handle, read_memory_remainder KERN_SUCCESS vm_read handle.inferior addr (toInt32 size) buffer)

/-- The bytes of a memory `mem` at the addresses `[a, a + n)`. -/
def memory_bytes (mem : Nat → Nat) (a n : Nat) : List Nat :=
  (List.range n).map (fun i => mem (a + i))

/-! ## The wait state: `do_wait`, `_powerpc_setup_inferior`, `powerpc_global_wait` -/

/-- The file-level variables `global_pid`, `stop_requested`, `stop_status`,
`first_status` and `first_ret`. -/
structure WaitState where
  global_pid : Int
  stop_requested : Int
  stop_status : Int
  first_status : Int
  first_ret : Int
  deriving DecidableEq, Repr

/-- What one `waitpid` call answers: its return value, the content of the
status variable after the call and the value of `errno` after the call. -/
structure WaitpidOutcome where
  ret : Int
  status : Int
  errno : Int
  deriving DecidableEq, Repr

/-- The C function `do_wait`, given what `waitpid` answers; yields the returned
value and the content of `*status`.  `EINTR` is the constant of `<errno.h>`. -/
def do_wait (EINTR : Int) (_pid : Int) (o : WaitpidOutcome) : Int × Int :=
  if o.ret < 0 then
    if o.errno = EINTR then (0, o.status)
    else (-1, o.status)
  else (o.ret, o.status)

/-- What `powerpc_global_wait` leaves behind: the returned `guint32`, the
content of `*status_ret`, the wait state and the answers of `waitpid` that have
not been used. -/
structure GlobalWaitResult where
  ret : Nat
  status_ret : Nat
  state : WaitState
  os : List WaitpidOutcome
  deriving DecidableEq, Repr

/-- The C function `powerpc_global_wait`, run against the queue of answers of
successive `waitpid` calls; `status_ret` is the content of the output cell
before the call.  `none`: the call blocks in `waitpid` for ever (no answer is
left).  The two mutexes have no effect on a single thread of control. -/
def powerpc_global_wait (EINTR : Int) (ws : WaitState) (os : List WaitpidOutcome)
    (status_ret : Nat) : Option GlobalWaitResult :=
  if ws.first_status ≠ 0 then
    some { ret := toGuint32 ws.first_ret, status_ret := toGuint32 ws.first_status,
           state := { ws with first_status := 0 }, os := os }
  else
    match os with
    | [] => none
    | o :: rest =>
      let ret := (do_wait EINTR (-1) o).1
      let status := (do_wait EINTR (-1) o).2
      if ret ≤ 0 then
        some { ret := toGuint32 ret, status_ret := status_ret, state := ws, os := rest }
      else if ret = ws.stop_requested then
        some { ret := 0, status_ret := status_ret,
               state := { ws with stop_status := status }, os := rest }
      else
        some { ret := toGuint32 ret, status_ret := toGuint32 status, state := ws, os := rest }

/-- The values of the `ServerCommand` enumerators of `server.h` that
`command_func` switches on.  C requires the labels of one `switch` to be
pairwise distinct. -/
structure Opcodes where
  SERVER_COMMAND_GET_PC : Int
  SERVER_COMMAND_CONTINUE : Int
  SERVER_COMMAND_DETACH : Int
  SERVER_COMMAND_SHUTDOWN : Int
  SERVER_COMMAND_KILL : Int
  distinct : [SERVER_COMMAND_GET_PC, SERVER_COMMAND_CONTINUE, SERVER_COMMAND_DETACH,
    SERVER_COMMAND_SHUTDOWN, SERVER_COMMAND_KILL].Nodup

/-- A numbering of the five commands, for the concrete instances only. -/
def sampleOpcodes : Opcodes where
  SERVER_COMMAND_GET_PC := 1
  SERVER_COMMAND_CONTINUE := 2
  SERVER_COMMAND_DETACH := 3
  SERVER_COMMAND_SHUTDOWN := 4
  SERVER_COMMAND_KILL := 5
  distinct := by decide

/-- The inferior operations `command_func` calls; they are declared in
`server.h` and defined outside the sources.  Each yields its result code and the
handle afterwards; `server_get_program_counter` also yields the value it stores
in `*arg`. -/
structure InferiorOps (H : Type) where
  server_get_program_counter : H → ServerCommandError × Nat × H
  server_ptrace_continue : H → ServerCommandError × H
  server_ptrace_detach : H → ServerCommandError × H

/-- One item of the data written to a descriptor: a result code
(`sizeof (result)` bytes) or a 64-bit argument. -/
inductive Field where
  | result (r : ServerCommandError)
  | arg64 (n : Nat)
  deriving DecidableEq, Repr

/-- A transfer on a descriptor: a `read` of one `ServerCommand`, or a `write`
of the listed items. -/
inductive ChannelEvent where
  | read (fd : Int)
  | write (fd : Int) (payload : List Field)
  deriving DecidableEq, Repr

/-- What `command_func` leaves behind: whether `g_error` ended the process,
the handle, the variable `shutdown` and the transfers made, in order. -/
structure CommandOutcome (H : Type) where
  aborted : Bool
  handle : H
  shutdown : Int
  trace : List ChannelEvent

/-- The C function `command_func`.  `shutdown` is the file-level variable;
`read_result` is what the `read` delivers (`none`: it did not return
`sizeof (command)` bytes); `write_ok` tells whether the `write` returns
`sizeof (result)`. -/
def command_func {H : Type} (c : Opcodes) (ops : InferiorOps H) (handle : H) (fd : Int)
    (shutdown : Int) (read_result : Option Int) (write_ok : Bool) : CommandOutcome H :=
  match read_result with
  | none =>
    { aborted := true, handle := handle, shutdown := shutdown, trace := [ChannelEvent.read fd] }
  | some command =>
    let r : ServerCommandError × H × Int :=
      if command = c.SERVER_COMMAND_GET_PC then
        ((ops.server_get_program_counter handle).1, (ops.server_get_program_counter handle).2.2,
          shutdown)
      else if command = c.SERVER_COMMAND_CONTINUE then
        ((ops.server_ptrace_continue handle).1, (ops.server_ptrace_continue handle).2, shutdown)
      else if command = c.SERVER_COMMAND_DETACH then
        ((ops.server_ptrace_detach handle).1, (ops.server_ptrace_detach handle).2, shutdown)
      else if command = c.SERVER_COMMAND_SHUTDOWN then
        (COMMAND_ERROR_NONE, handle, 1)
      else if command = c.SERVER_COMMAND_KILL then
        (COMMAND_ERROR_NONE, handle, 2)
      else
        (COMMAND_ERROR_INVALID_COMMAND, handle, shutdown)
    { aborted := !write_ok, handle := r.2.1, shutdown := r.2.2,
      trace := [ChannelEvent.read fd, ChannelEvent.write fd [Field.result r.1]] }

/-- The C function `sigterm_handler`: the new value of `shutdown`. -/
def sigterm_handler (_shutdown : Int) : Int := 2

/-- The two signals `main` sends to the child. -/
inductive Signal where
  | SIGKILL
  | SIGTERM
  deriving DecidableEq, Repr

/-- A call made by the teardown code of `main`. -/
inductive TeardownCall where
  | server_ptrace_detach
  | kill (pid : Int) (sig : Signal)
  deriving DecidableEq, Repr

/-- The code of `main` after the loop `while (!shutdown)` has ended: the calls
it makes, given the local `attached`, the variable `shutdown` and the local
`pid`. -/
def main_teardown (attached : Bool) (shutdown : Int) (pid : Int) : List TeardownCall :=
  if attached then [TeardownCall.server_ptrace_detach]
  else if shutdown = 2 then [TeardownCall.kill pid Signal.SIGKILL]
  else [TeardownCall.kill pid Signal.SIGTERM]

/-! ## `server.c`: `send_status_message` and the loop of `main` -/

/-- A call of one of the four operations of `powerpc-darwin.c` that take the
handle of a running session, with its inputs and with what the operating
system answers to it. -/
inductive HandleOp where
  | op_dispatch_event (w : WaitEncoding) (fetch : ServerHandle → ArchInfo) (status : Nat)
  | op_continue (ESRCH : Int) (ptrace : PtraceCall → PtraceResult)
  | op_step (ESRCH : Int) (ptrace : PtraceCall → PtraceResult)
  | op_read_memory (KERN_SUCCESS : Int) (vm_read : Nat → Nat → Nat → VmReadResult)
      (start size : Nat) (buffer : List Nat)

/-- The handle after one call. -/
def HandleOp.apply (handle : ServerHandle) : HandleOp → ServerHandle
  | HandleOp.op_dispatch_event w fetch status =>
    (powerpc_dispatch_event w fetch handle status).handle
  | HandleOp.op_continue ESRCH ptrace => (powerpc_continue ESRCH ptrace handle).handle
  | HandleOp.op_step ESRCH ptrace => (powerpc_step ESRCH ptrace handle).handle
  | HandleOp.op_read_memory KERN_SUCCESS vm_read start size buffer =>
    (powerpc_read_memory KERN_SUCCESS vm_read handle start size buffer).1

/-- The handle after a sequence of calls, made in the order of the list. -/
def apply_ops (handle : ServerHandle) (ops : List HandleOp) : ServerHandle :=
  ops.foldl HandleOp.apply handle

/-! ## `mono-debug-debugger.c`: the method-load callbacks -/

/-- The C `struct MethodLoadCallback`: a `guint64` index and the method
pointer. -/
structure MethodLoadCallback where
  index : Nat
  method : Nat
  deriving DecidableEq, Repr

/-- The part of the memory the callback functions work on: the record stored
at each address, and the variable `method_load_callbacks` (`none` for `NULL`,
otherwise the pointers held by the array, in order). -/
structure CallbackState where
  heap : Nat → MethodLoadCallback
  method_load_callbacks : Option (List Nat)

/-- The GLib call `g_ptr_array_remove (array, data)`: the first occurrence of
the pointer `data` is removed and the elements after it move down by one. -/
def g_ptr_array_remove (array : List Nat) (data : Nat) : List Nat :=
  array.erase data

/-- The C function `mono_debugger_register_method_load_callback`; `info` is
the address `g_new0` hands back. -/
def mono_debugger_register_method_load_callback (info : Nat) (index : Nat) (method : Nat)
    (st : CallbackState) : CallbackState :=
  { heap := fun a => if a = info then { index := index, method := method } else st.heap a,
    method_load_callbacks :=
      match st.method_load_callbacks with
      | none => some [info]
      | some array => some (array ++ [info]) }

/-- The loop `for (i = 0; i < method_load_callbacks->len; i++)` of
`mono_debugger_remove_method_load_callback`, from the counter `i` on, with a
bound on the number of passes.  `none`: the bound is reached before the loop
ends. -/
def remove_method_load_loop (heap : Nat → MethodLoadCallback) (index : Int) :
    Nat → Nat → List Nat → Option (List Nat)
  | 0, _, _ => none
  | fuel + 1, i, array =>
    match array[i]? with
    | none => some array
    | some info =>
      if (heap info).index ≠ toGuint64 index then
        remove_method_load_loop heap index fuel (i + 1) array
      else
        remove_method_load_loop heap index fuel (i + 1) (g_ptr_array_remove array info)

/-- The C function `mono_debugger_remove_method_load_callback`.  The loop is
given one pass more than the array has elements, which is enough for it to end
(`remove_method_load_loop_ends`). -/
def mono_debugger_remove_method_load_callback (index : Int) (st : CallbackState) :
    Option CallbackState :=
  match st.method_load_callbacks with
  | none => some st
  | some array =>
    match remove_method_load_loop st.heap index (array.length + 1) 0 array with
    | none => none
    | some r => some { st with method_load_callbacks := some r }

/-- The indices of the callbacks held by the array, in order. -/
def callback_indices (st : CallbackState) : List Nat :=
  match st.method_load_callbacks with
  | none => []
  | some array => array.map (fun p => (st.heap p).index)

/-! ## Concrete inputs used by the instances below -/

/-- A handle of a spawned inferior: pid 100, page size 4096, no signal
recorded. -/
def sampleHandle : ServerHandle :=
  { bpm := 0,
    inferior := { pid := 100, task := 1, thread := 1, pagesize := 4096, last_signal := 0 },
    arch := [] }

/-- A register fetch that leaves the snapshot as it is. -/
def keepRegisters : ServerHandle → ArchInfo := fun h => h.arch

/-- A memory of the inferior whose bytes tell the pages apart: the byte at `a`
is the number of the 4096-byte page of `a` plus the upper 32-bit half of `a`,
reduced to a byte. -/
def sampleMemory : Nat → Nat := fun a => (a / 4096 + a / 4294967296) % 256

/-- A `vm_read` that always succeeds in full: it hands back the `n` bytes of
`mem` at `[a, a + n)` with `KERN_SUCCESS = 0` and `count = n`. -/
def fullRead (mem : Nat → Nat) : Nat → Nat → Nat → VmReadResult :=
  fun _ a n => { kret := 0, data := memory_bytes mem a n, count := (n : Int) }

/-- The wait state at server start: every variable is 0. -/
def initialWaitState : WaitState :=
  { global_pid := 0, stop_requested := 0, stop_status := 0, first_status := 0, first_ret := 0 }

/-- Inferior operations on a handle of type `Unit` that all answer
`COMMAND_ERROR_NONE`; the program counter is 4096. -/
def sampleOps : InferiorOps Unit where
  server_get_program_counter := fun _ => (COMMAND_ERROR_NONE, 4096, ())
  server_ptrace_continue := fun _ => (COMMAND_ERROR_NONE, ())
  server_ptrace_detach := fun _ => (COMMAND_ERROR_NONE, ())

/-- A `ptrace` that succeeds on every call. -/
def ptraceSucceeds : PtraceCall → PtraceResult := fun _ => { ret := 0, errno := 0 }

/-- No callback is registered: `method_load_callbacks` is `NULL`. -/
def noCallbacks : CallbackState :=
  { heap := fun _ => { index := 0, method := 0 }, method_load_callbacks := none }

/-- Three registrations in a row: two callbacks with index 7 (records at 1000
and 2000), then one with index 8 (record at 3000). -/
def threeCallbacks : CallbackState :=
  mono_debugger_register_method_load_callback 3000 8 503
    (mono_debugger_register_method_load_callback 2000 7 502
      (mono_debugger_register_method_load_callback 1000 7 501 noCallbacks))

theorem toGuint32_of_nonneg {i : Int} (h0 : 0 ≤ i) (h1 : i < 4294967296) :
    ((toGuint32 i : Nat) : Int) = i := by
  unfold toGuint32
  rw [Int.emod_eq_of_lt h0 h1]
  exact Int.toNat_of_nonneg h0

theorem toGuint64_of_nonneg {i : Int} (h0 : 0 ≤ i) (h1 : i < 18446744073709551616) :
    ((toGuint64 i : Nat) : Int) = i := by
  unfold toGuint64
  rw [Int.emod_eq_of_lt h0 h1]
  exact Int.toNat_of_nonneg h0

theorem toInt32_of_lt {n : Nat} (h : n < 2147483648) : toInt32 n = (n : Int) := by
  unfold toInt32
  have h2 : n % 4294967296 = n := Nat.mod_eq_of_lt (by omega)
  rw [h2, if_pos h]

/-! ## `powerpc_dispatch_event` -/

/-- C1: `powerpc_dispatch_event` classifies every status.  The message is
`MESSAGE_CHILD_STOPPED` exactly when the status is a stop; otherwise
`MESSAGE_CHILD_EXITED` exactly when it is a normal exit, with `arg` the exit
code; otherwise `MESSAGE_CHILD_SIGNALED` exactly when it is a death by signal,
with `arg` the terminating signal; in every remaining case
`MESSAGE_UNKNOWN_ERROR` with `arg = 0`.  `data1` and `data2` are always 0.  The
three tests are tried in this order (for a wait status they exclude one
another). -/
theorem dispatch_event_total_classification (w : WaitEncoding)
    (fetch : ServerHandle → ArchInfo) (handle : ServerHandle) (status : Nat) :
    (powerpc_dispatch_event w fetch handle status).data1 = 0 ∧
    (powerpc_dispatch_event w fetch handle status).data2 = 0 ∧
    ((powerpc_dispatch_event w fetch handle status).message = MESSAGE_CHILD_STOPPED ↔
      w.WIFSTOPPED status = true) ∧
    ((powerpc_dispatch_event w fetch handle status).message = MESSAGE_CHILD_EXITED ↔
      (w.WIFSTOPPED status = false ∧ w.WIFEXITED status = true)) ∧
    ((powerpc_dispatch_event w fetch handle status).message = MESSAGE_CHILD_SIGNALED ↔
      (w.WIFSTOPPED status = false ∧ w.WIFEXITED status = false ∧
        w.WIFSIGNALED status = true)) ∧
    ((powerpc_dispatch_event w fetch handle status).message = MESSAGE_UNKNOWN_ERROR ↔
      (w.WIFSTOPPED status = false ∧ w.WIFEXITED status = false ∧
        w.WIFSIGNALED status = false)) ∧
    ((powerpc_dispatch_event w fetch handle status).message = MESSAGE_CHILD_EXITED →
      (powerpc_dispatch_event w fetch handle status).arg = toGuint64 (w.WEXITSTATUS status)) ∧
    ((powerpc_dispatch_event w fetch handle status).message = MESSAGE_CHILD_SIGNALED →
      (powerpc_dispatch_event w fetch handle status).arg = toGuint64 (w.WTERMSIG status)) ∧
    ((powerpc_dispatch_event w fetch handle status).message = MESSAGE_UNKNOWN_ERROR →
      (powerpc_dispatch_event w fetch handle status).arg = 0) := by
  unfold powerpc_dispatch_event
  cases hs : w.WIFSTOPPED status <;> cases he : w.WIFEXITED status <;>
    cases hg : w.WIFSIGNALED status <;> simp <;> split <;> simp

/-- C2 as stated fails: a stop by SIGSTOP (status 0x117f in the BSD encoding,
stop signal 17, which is not the trap signal 5) leaves `last_signal = 0` and
reports the argument 0, and the next `powerpc_continue` passes 0, not 17, to
`ptrace`. -/
theorem dispatch_event_sigstop_not_recorded :
    bsdWait.WIFSTOPPED 4479 = true ∧ bsdWait.WSTOPSIG 4479 = 17 ∧
    bsdWait.WSTOPSIG 4479 ≠ bsdWait.SIGTRAP ∧
    (powerpc_dispatch_event bsdWait keepRegisters sampleHandle 4479).handle.inferior.last_signal
      = 0 ∧
    (powerpc_dispatch_event bsdWait keepRegisters sampleHandle 4479).handle.inferior.last_signal
      ≠ bsdWait.WSTOPSIG 4479 ∧
    (powerpc_dispatch_event bsdWait keepRegisters sampleHandle 4479).arg = 0 ∧
    (powerpc_continue 3 ptraceSucceeds
      (powerpc_dispatch_event bsdWait keepRegisters sampleHandle 4479).handle).calls
      = [{ request := PtraceRequest.PT_CONTINUE, pid := 100, addr := 1, data := 0 }] := by
  decide

/-- C2, amended: for every stop status with signal `s`: if `s` is SIGTRAP or
SIGSTOP, `last_signal` becomes 0 and the reported argument is 0; for every
other `s`, `last_signal` becomes `s`, the reported argument is `s` (converted
to `guint64`), and the next `powerpc_continue` and `powerpc_step` make exactly
one `ptrace` call, for the pid of the handle, with `s` as the signal. -/
theorem dispatch_event_records_signal (w : WaitEncoding) (fetch : ServerHandle → ArchInfo)
    (handle : ServerHandle) (status : Nat) (ESRCH : Int) (ptrace : PtraceCall → PtraceResult)
    (hstop : w.WIFSTOPPED status = true) :
    ((w.WSTOPSIG status = w.SIGTRAP ∨ w.WSTOPSIG status = w.SIGSTOP) →
      (powerpc_dispatch_event w fetch handle status).handle.inferior.last_signal = 0 ∧
      (powerpc_dispatch_event w fetch handle status).arg = 0) ∧
    ((w.WSTOPSIG status ≠ w.SIGTRAP ∧ w.WSTOPSIG status ≠ w.SIGSTOP) →
      (powerpc_dispatch_event w fetch handle status).handle.inferior.last_signal
        = w.WSTOPSIG status ∧
      (powerpc_dispatch_event w fetch handle status).arg = toGuint64 (w.WSTOPSIG status) ∧
      (powerpc_continue ESRCH ptrace (powerpc_dispatch_event w fetch handle status).handle).calls
        = [{ request := PtraceRequest.PT_CONTINUE, pid := handle.inferior.pid, addr := 1,
             data := w.WSTOPSIG status }] ∧
      (powerpc_step ESRCH ptrace (powerpc_dispatch_event w fetch handle status).handle).calls
        = [{ request := PtraceRequest.PT_STEP, pid := handle.inferior.pid, addr := 1,
             data := w.WSTOPSIG status }]) := by
  constructor
  · intro h
    unfold powerpc_dispatch_event
    rw [if_pos hstop]
    by_cases ht : w.WSTOPSIG status = w.SIGTRAP
    · simp [ht]
    · have hs : w.WSTOPSIG status = w.SIGSTOP := h.resolve_left ht
      have ht2 : ¬ w.SIGSTOP = w.SIGTRAP := fun e => ht (hs.trans e)
      simp [hs, ht2, toGuint64]
  · rintro ⟨ht, hs⟩
    unfold powerpc_dispatch_event
    rw [if_pos hstop]
    simp only [if_neg ht, if_neg hs, true_and]
    constructor
    · unfold powerpc_continue
      simp only [powerpc_arch_get_registers]
      split
      · split <;> rfl
      · rfl
    · unfold powerpc_step
      simp only [powerpc_arch_get_registers]
      split
      · split <;> rfl
      · rfl

/-- Instance of `dispatch_event_records_signal`: a stop by signal 2 (status
0x027f in the BSD encoding). -/
theorem dispatch_event_records_signal_witness :
    (powerpc_dispatch_event bsdWait keepRegisters sampleHandle 639).handle.inferior.last_signal
      = 2 ∧
    (powerpc_continue 3 ptraceSucceeds
      (powerpc_dispatch_event bsdWait keepRegisters sampleHandle 639).handle).calls
      = [{ request := PtraceRequest.PT_CONTINUE, pid := 100, addr := 1, data := 2 }] :=
  have h := (dispatch_event_records_signal bsdWait keepRegisters sampleHandle 639 3
    ptraceSucceeds (by decide)).2 (by decide)
  ⟨h.1, h.2.2.1⟩

/-! ## `powerpc_continue` and `powerpc_step` -/

/-- C3: `powerpc_continue` and `powerpc_step` map the answer of their `ptrace`
call in the same way: `COMMAND_ERROR_NONE` exactly when the call returns 0,
`COMMAND_ERROR_NOT_STOPPED` exactly when it fails with `errno = ESRCH`,
`COMMAND_ERROR_UNKNOWN` exactly when it fails with any other `errno`; both
leave the handle as it was, and each makes exactly one call (`PT_CONTINUE`,
respectively `PT_STEP`) for the pid of the handle with `last_signal`. -/
theorem continue_step_result_mapping (ESRCH : Int) (ptrace : PtraceCall → PtraceResult)
    (handle : ServerHandle) :
    (powerpc_continue ESRCH ptrace handle).calls =
      [PtraceCall.mk PtraceRequest.PT_CONTINUE handle.inferior.pid 1
          handle.inferior.last_signal] ∧
    (powerpc_continue ESRCH ptrace handle).handle = handle ∧
    ((powerpc_continue ESRCH ptrace handle).result = COMMAND_ERROR_NONE ↔
      (ptrace (PtraceCall.mk PtraceRequest.PT_CONTINUE handle.inferior.pid 1
          handle.inferior.last_signal)).ret = 0) ∧
    ((powerpc_continue ESRCH ptrace handle).result = COMMAND_ERROR_NOT_STOPPED ↔
      ((ptrace (PtraceCall.mk PtraceRequest.PT_CONTINUE handle.inferior.pid 1
          handle.inferior.last_signal)).ret ≠ 0 ∧
       (ptrace (PtraceCall.mk PtraceRequest.PT_CONTINUE handle.inferior.pid 1
          handle.inferior.last_signal)).errno = ESRCH)) ∧
    ((powerpc_continue ESRCH ptrace handle).result = COMMAND_ERROR_UNKNOWN ↔
      ((ptrace (PtraceCall.mk PtraceRequest.PT_CONTINUE handle.inferior.pid 1
          handle.inferior.last_signal)).ret ≠ 0 ∧
       (ptrace (PtraceCall.mk PtraceRequest.PT_CONTINUE handle.inferior.pid 1
          handle.inferior.last_signal)).errno ≠ ESRCH)) ∧
    (powerpc_step ESRCH ptrace handle).calls =
      [PtraceCall.mk PtraceRequest.PT_STEP handle.inferior.pid 1
          handle.inferior.last_signal] ∧
    (powerpc_step ESRCH ptrace handle).handle = handle ∧
    ((powerpc_step ESRCH ptrace handle).result = COMMAND_ERROR_NONE ↔
      (ptrace (PtraceCall.mk PtraceRequest.PT_STEP handle.inferior.pid 1
          handle.inferior.last_signal)).ret = 0) ∧
    ((powerpc_step ESRCH ptrace handle).result = COMMAND_ERROR_NOT_STOPPED ↔
      ((ptrace (PtraceCall.mk PtraceRequest.PT_STEP handle.inferior.pid 1
          handle.inferior.last_signal)).ret ≠ 0 ∧
       (ptrace (PtraceCall.mk PtraceRequest.PT_STEP handle.inferior.pid 1
          handle.inferior.last_signal)).errno = ESRCH)) ∧
    ((powerpc_step ESRCH ptrace handle).result = COMMAND_ERROR_UNKNOWN ↔
      ((ptrace (PtraceCall.mk PtraceRequest.PT_STEP handle.inferior.pid 1
          handle.inferior.last_signal)).ret ≠ 0 ∧
       (ptrace (PtraceCall.mk PtraceRequest.PT_STEP handle.inferior.pid 1
          handle.inferior.last_signal)).errno ≠ ESRCH)) := by
  unfold powerpc_continue powerpc_step
  simp only []
  refine ⟨?_, ?_, ?_, ?_, ?_, ?_, ?_, ?_, ?_, ?_⟩ <;> split_ifs with h0 h1 <;> simp_all

/-! ## `powerpc_read_memory` -/

theorem memory_bytes_length (mem : Nat → Nat) (a n : Nat) :
    (memory_bytes mem a n).length = n := by
  simp [memory_bytes]

theorem memory_bytes_slice (mem : Nat → Nat) (base ps off size : Nat) (h : off + size ≤ ps) :
    ((memory_bytes mem base ps).drop off).take size = memory_bytes mem (base + off) size := by
  unfold memory_bytes
  apply List.ext_getElem
  · simp
    omega
  · intro i h1 h2
    simp [Nat.add_assoc]

theorem toGuint32_natCast {n : Nat} (h : n < 4294967296) : toGuint32 (n : Int) = n := by
  have h1 := toGuint32_of_nonneg (Int.natCast_nonneg n) (by exact_mod_cast h)
  exact_mod_cast h1

theorem toGuint32_toInt32 {n : Nat} (h : n < 4294967296) : toGuint32 (toInt32 n) = n := by
  unfold toInt32 toGuint32
  have h2 : n % 4294967296 = n := Nat.mod_eq_of_lt h
  rw [h2]
  split <;> omega

/-- The body of `read_memory_remainder` when the page size is positive and the
page read reports success: the result is `COMMAND_ERROR_NONE` and the buffer
is what `memcpy` makes of the page from the offset of `addr` on. -/
theorem read_memory_remainder_success (K : Int) (vm_read : Nat → Nat → Nat → VmReadResult)
    (inferior : InferiorHandle) (addr size ps : Nat) (buffer : List Nat)
    (hps : inferior.pagesize = (ps : Int)) (hps0 : 0 < ps) (hps1 : ps < 2147483648)
    (haddr : addr < 4294967296) (hsize : size < 4294967296)
    (hk : (vm_read inferior.task (addr - addr % ps) ps).kret = K)
    (hc : (vm_read inferior.task (addr - addr % ps) ps).count = (ps : Int)) :
    read_memory_remainder K vm_read inferior addr (toInt32 size) buffer =
      { result := COMMAND_ERROR_NONE,
        buffer := memcpy buffer
          ((vm_read inferior.task (addr - addr % ps) ps).data.drop (addr % ps)) size } := by
  have hoff : addr % ps < ps := Nat.mod_lt _ hps0
  have hle : addr % ps ≤ addr := Nat.mod_le _ _
  have e1 : toGuint32 inferior.pagesize = ps := by
    rw [hps]
    exact toGuint32_natCast (by omega)
  have e2 : toInt32 (addr % ps) = ((addr % ps : Nat) : Int) := toInt32_of_lt (by omega)
  have e3 : toGuint32 ((addr : Int) - ((addr % ps : Nat) : Int)) = addr - addr % ps := by
    have : ((addr : Int) - ((addr % ps : Nat) : Int)) = ((addr - addr % ps : Nat) : Int) := by
      omega
    rw [this]
    exact toGuint32_natCast (by omega)
  have e4 : ¬ (((addr % ps : Nat) : Int) < 0) := by omega
  unfold read_memory_remainder
  simp only [e1, e2, e3, hk, hc, toGuint32_toInt32 hsize, e4, Int.toNat_ofNat]
  simp [hps]

theorem memcpy_page_slice (mem : Nat → Nat) (base ps off size : Nat) (buffer : List Nat)
    (h : off + size ≤ ps) (hb : size ≤ buffer.length) :
    memcpy buffer ((memory_bytes mem base ps).drop off) size
      = some (memory_bytes mem (base + off) size ++ buffer.drop size) := by
  unfold memcpy
  rw [memory_bytes_slice mem base ps off size h]
  have hl : size ≤ ((memory_bytes mem base ps).drop off).length := by
    rw [List.length_drop, memory_bytes_length]
    omega
  rw [if_pos ⟨hl, hb⟩]

theorem memcpy_page_overrun (mem : Nat → Nat) (base ps off size : Nat) (buffer : List Nat)
    (ho : off ≤ ps) (h : ps < off + size) :
    memcpy buffer ((memory_bytes mem base ps).drop off) size = none := by
  unfold memcpy
  have hl : ¬ size ≤ ((memory_bytes mem base ps).drop off).length := by
    rw [List.length_drop, memory_bytes_length]
    omega
  rw [if_neg (fun hh => hl hh.1)]

theorem fullRead_kret (mem : Nat → Nat) (t a n : Nat) : (fullRead mem t a n).kret = 0 := rfl

theorem fullRead_count (mem : Nat → Nat) (t a n : Nat) :
    (fullRead mem t a n).count = (n : Int) := rfl

theorem fullRead_data (mem : Nat → Nat) (t a n : Nat) :
    (fullRead mem t a n).data = memory_bytes mem a n := rfl

/-- The function `read_memory_remainder` against a `vm_read` that always succeeds in
full. -/
theorem read_memory_remainder_fullRead (mem : Nat → Nat) (inferior : InferiorHandle)
    (addr size ps : Nat) (buffer : List Nat)
    (hps : inferior.pagesize = (ps : Int)) (hps0 : 0 < ps) (hps1 : ps < 2147483648)
    (haddr : addr < 4294967296) (hsize : size < 4294967296) :
    read_memory_remainder 0 (fullRead mem) inferior addr (toInt32 size) buffer =
      { result := COMMAND_ERROR_NONE,
        buffer := memcpy buffer
          ((memory_bytes mem (addr - addr % ps) ps).drop (addr % ps)) size } :=
  read_memory_remainder_success 0 (fullRead mem) inferior addr size ps buffer hps hps0 hps1
    haddr hsize rfl rfl

/-- C4 as stated fails in two places.  A start address that does not fit in 32
bits is cut to its low 32 bits: reading one byte at 2^32 yields the byte at
address 0 (0), not the byte at 2^32 (1).  A range that leaves the containing
page is copied from beyond the region `vm_read` handed back: reading two bytes
at 4095 does not yield the bytes at 4095 and 4096. -/
theorem read_memory_truncates_and_overruns :
    (powerpc_read_memory 0 (fullRead sampleMemory) sampleHandle 4294967296 1 [7]).2
      = { result := COMMAND_ERROR_NONE, buffer := some [0] } ∧
    memory_bytes sampleMemory 4294967296 1 = [1] ∧
    (powerpc_read_memory 0 (fullRead sampleMemory) sampleHandle 4095 2 [7, 7]).2
      = { result := COMMAND_ERROR_NONE, buffer := none } ∧
    memory_bytes sampleMemory 4095 2 = [0, 1] := by
  have r1 := read_memory_remainder_fullRead sampleMemory sampleHandle.inferior
    0 1 4096 [7] rfl (by decide) (by decide) (by decide) (by decide)
  have r2 := read_memory_remainder_fullRead sampleMemory sampleHandle.inferior
    4095 2 4096 [7, 7] rfl (by decide) (by decide) (by decide) (by decide)
  refine ⟨?_, by decide, ?_, by decide⟩
  · show read_memory_remainder 0 (fullRead sampleMemory) sampleHandle.inferior 0 (toInt32 1) [7]
      = _
    rw [r1, memcpy_page_slice sampleMemory _ 4096 _ 1 [7] (by decide) (by decide)]
    decide
  · show read_memory_remainder 0 (fullRead sampleMemory) sampleHandle.inferior 4095 (toInt32 2)
      [7, 7] = _
    rw [r2, memcpy_page_overrun sampleMemory _ 4096 _ 2 [7, 7] (by decide) (by decide)]

/-- C4, amended: let `a` be the start address cut to its low 32 bits (the
address itself when it fits in 32 bits).  When the page size is positive, the
range `[a mod pagesize, a mod pagesize + len)` stays within the containing page,
and the read of that page succeeds in full, `powerpc_read_memory` returns
`COMMAND_ERROR_NONE`, leaves the handle as it was, and fills the first `len`
bytes of the buffer with exactly the bytes of the inferior at `[a, a + len)`,
which are the containing page sliced at `[a mod pagesize, a mod pagesize + len)`.
Nothing is said about a range that leaves the containing page. -/
theorem read_memory_exact_within_page (K : Int) (vm_read : Nat → Nat → Nat → VmReadResult)
    (handle : ServerHandle) (mem : Nat → Nat) (start size ps : Nat) (buffer : List Nat)
    (hps : handle.inferior.pagesize = (ps : Int)) (hps0 : 0 < ps) (hps1 : ps < 2147483648)
    (hfit : start % 4294967296 % ps + size ≤ ps)
    (hbuf : size ≤ buffer.length)
    (hk : (vm_read handle.inferior.task
      (start % 4294967296 - start % 4294967296 % ps) ps).kret = K)
    (hc : (vm_read handle.inferior.task
      (start % 4294967296 - start % 4294967296 % ps) ps).count = (ps : Int))
    (hd : (vm_read handle.inferior.task
      (start % 4294967296 - start % 4294967296 % ps) ps).data
        = memory_bytes mem (start % 4294967296 - start % 4294967296 % ps) ps) :
    powerpc_read_memory K vm_read handle start size buffer
      = (handle, { result := COMMAND_ERROR_NONE,
                   buffer := some (memory_bytes mem (start % 4294967296) size
                     ++ buffer.drop size) }) ∧
    memory_bytes mem (start % 4294967296) size
      = ((memory_bytes mem (start % 4294967296 - start % 4294967296 % ps) ps).drop
          (start % 4294967296 % ps)).take size := by
  have haddr : start % 4294967296 < 4294967296 := Nat.mod_lt _ (by decide)
  have hle : start % 4294967296 % ps ≤ start % 4294967296 := Nat.mod_le _ _
  have hbase : start % 4294967296 - start % 4294967296 % ps + start % 4294967296 % ps
      = start % 4294967296 := by omega
  constructor
  · simp only [powerpc_read_memory]
    rw [read_memory_remainder_success K vm_read handle.inferior (start % 4294967296) size ps
      buffer hps hps0 hps1 haddr (by omega) hk hc, hd,
      memcpy_page_slice mem _ ps _ size buffer hfit hbuf, hbase]
  · rw [memory_bytes_slice mem _ ps _ size hfit, hbase]

/-- Instance of `read_memory_exact_within_page`: three bytes at 4100, which is
not aligned to the page size 4096. -/
theorem read_memory_exact_within_page_witness :
    powerpc_read_memory 0 (fullRead sampleMemory) sampleHandle 4100 3 [7, 7, 7]
      = (sampleHandle, { result := COMMAND_ERROR_NONE,
                         buffer := some (memory_bytes sampleMemory (4100 % 4294967296) 3
                           ++ [7, 7, 7].drop 3) }) ∧
    memory_bytes sampleMemory (4100 % 4294967296) 3 ++ [7, 7, 7].drop 3 = [1, 1, 1] :=
  ⟨(read_memory_exact_within_page 0 (fullRead sampleMemory) sampleHandle sampleMemory 4100 3
    4096 [7, 7, 7] rfl (by decide) (by decide) (by decide) (by decide)
    (fullRead_kret _ _ _ _) (fullRead_count _ _ _ _) (fullRead_data _ _ _ _)).1,
   by decide⟩

/-! ## The wait state -/

theorem toGuint32_eq_toNat {i : Int} (h0 : 0 ≤ i) (h1 : i < 4294967296) :
    toGuint32 i = i.toNat := by
  unfold toGuint32
  rw [Int.emod_eq_of_lt h0 h1]

/-- C6: when no first status is pending and `waitpid` reports pid `r > 0` with
status `st`: if `r` equals `stop_requested`, `powerpc_global_wait` stores `st`
in `stop_status`, returns 0 and leaves `*status_ret` as it was; otherwise it
writes `st` to `*status_ret`, returns `r` and leaves `stop_status` (the whole
wait state) as it was.  In both cases exactly one `waitpid` answer is used. -/
theorem global_wait_delivers_to_one (EINTR : Int) (ws : WaitState) (o : WaitpidOutcome)
    (os : List WaitpidOutcome) (status_ret : Nat)
    (hfirst : ws.first_status = 0) (hr : 0 < o.ret) (hr2 : o.ret < 2147483648) :
    (o.ret = ws.stop_requested →
      powerpc_global_wait EINTR ws (o :: os) status_ret
        = some { ret := 0, status_ret := status_ret,
                 state := { ws with stop_status := o.status }, os := os }) ∧
    (o.ret ≠ ws.stop_requested →
      powerpc_global_wait EINTR ws (o :: os) status_ret
        = some { ret := o.ret.toNat, status_ret := toGuint32 o.status,
                 state := ws, os := os }) := by
  have hd : do_wait EINTR (-1) o = (o.ret, o.status) := by
    unfold do_wait
    rw [if_neg (by omega)]
  have hle : ¬ o.ret ≤ 0 := by omega
  unfold powerpc_global_wait
  rw [if_neg (not_not.mpr hfirst)]
  simp only [hd, if_neg hle]
  constructor
  · intro h
    rw [if_pos h]
  · intro h
    rw [if_neg h, toGuint32_eq_toNat (by omega) (by omega)]

/-- Instance of `global_wait_delivers_to_one`: pid 200 stops while a stop of
pid 200 is requested. -/
theorem global_wait_delivers_to_one_witness :
    powerpc_global_wait 4
        { global_pid := 100, stop_requested := 200, stop_status := 0, first_status := 0,
          first_ret := 100 }
        [{ ret := 200, status := 4479, errno := 0 }] 7
      = some { ret := 0, status_ret := 7,
               state := { global_pid := 100, stop_requested := 200, stop_status := 4479,
                          first_status := 0, first_ret := 100 },
               os := [] } :=
  (global_wait_delivers_to_one 4
    { global_pid := 100, stop_requested := 200, stop_status := 0, first_status := 0,
      first_ret := 100 }
    { ret := 200, status := 4479, errno := 0 } [] 7 rfl (by decide) (by decide)).1 rfl

/-- C7 as stated fails: when `waitpid` fails with ECHILD (10, not EINTR = 4),
`powerpc_global_wait` returns 4294967295, the value -1 converted to its return
type `guint32`, which is not negative. -/
theorem global_wait_failure_not_negative :
    powerpc_global_wait 4 initialWaitState [{ ret := -1, status := 0, errno := 10 }] 7
      = some { ret := 4294967295, status_ret := 7, state := initialWaitState, os := [] } ∧
    ¬ (((4294967295 : Nat) : Int) < 0) := by
  decide

/-- C7, amended: when no first status is pending and `waitpid` fails with an
error other than EINTR, `powerpc_global_wait` returns 4294967295 (-1 converted
to the unsigned 32-bit return type), leaving `*status_ret` and the wait state as
they were.  This value differs from the 0 returned for an interrupted or
diverted wait, and from the value returned for every forwarded event (a pid
`r` with `0 < r < 2^31`). -/
theorem global_wait_failure_value (EINTR : Int) (ws : WaitState) (o : WaitpidOutcome)
    (os : List WaitpidOutcome) (status_ret : Nat)
    (hfirst : ws.first_status = 0) (hfail : o.ret < 0) (herr : o.errno ≠ EINTR) :
    powerpc_global_wait EINTR ws (o :: os) status_ret
      = some { ret := 4294967295, status_ret := status_ret, state := ws, os := os } ∧
    (∀ (o2 : WaitpidOutcome) (r2 : GlobalWaitResult),
      ((o2.ret < 0 ∧ o2.errno = EINTR) ∨ (0 < o2.ret ∧ o2.ret < 2147483648)) →
      powerpc_global_wait EINTR ws (o2 :: os) status_ret = some r2 →
      r2.ret ≠ 4294967295) := by
  constructor
  · unfold powerpc_global_wait do_wait
    rw [if_neg (not_not.mpr hfirst)]
    simp only [if_pos hfail, if_neg herr]
    rfl
  · intro o2 r2 h2 hr
    unfold powerpc_global_wait do_wait at hr
    rw [if_neg (not_not.mpr hfirst)] at hr
    rcases h2 with ⟨h3, h4⟩ | ⟨h3, h4⟩
    · simp only [if_pos h3, if_pos h4] at hr
      simp only [le_refl, if_true, Option.some.injEq] at hr
      rw [← hr]
      show toGuint32 0 ≠ 4294967295
      decide
    · have h5 : ¬ o2.ret < 0 := by omega
      have h6 : ¬ o2.ret ≤ 0 := by omega
      simp only [if_neg h5, if_neg h6] at hr
      split_ifs at hr
      · simp only [Option.some.injEq] at hr
        rw [← hr]
        show (0 : Nat) ≠ 4294967295
        decide
      · simp only [Option.some.injEq] at hr
        rw [← hr]
        show toGuint32 o2.ret ≠ 4294967295
        rw [toGuint32_eq_toNat (by omega) (by omega)]
        omega

/-- Instance of `global_wait_failure_value`: `waitpid` fails with ECHILD. -/
theorem global_wait_failure_value_witness :
    powerpc_global_wait 4 initialWaitState
        [{ ret := -1, status := 0, errno := 10 }, { ret := 200, status := 1407, errno := 0 }] 7
      = some { ret := 4294967295, status_ret := 7, state := initialWaitState,
               os := [{ ret := 200, status := 1407, errno := 0 }] } :=
  (global_wait_failure_value 4 initialWaitState { ret := -1, status := 0, errno := 10 }
    [{ ret := 200, status := 1407, errno := 0 }] 7 rfl (by decide) (by decide)).1

/-! ## `command_func` and the end of `main` -/

theorem opcodes_ne (c : Opcodes) :
    c.SERVER_COMMAND_GET_PC ≠ c.SERVER_COMMAND_CONTINUE ∧
    c.SERVER_COMMAND_GET_PC ≠ c.SERVER_COMMAND_DETACH ∧
    c.SERVER_COMMAND_GET_PC ≠ c.SERVER_COMMAND_SHUTDOWN ∧
    c.SERVER_COMMAND_GET_PC ≠ c.SERVER_COMMAND_KILL ∧
    c.SERVER_COMMAND_CONTINUE ≠ c.SERVER_COMMAND_DETACH ∧
    c.SERVER_COMMAND_CONTINUE ≠ c.SERVER_COMMAND_SHUTDOWN ∧
    c.SERVER_COMMAND_CONTINUE ≠ c.SERVER_COMMAND_KILL ∧
    c.SERVER_COMMAND_DETACH ≠ c.SERVER_COMMAND_SHUTDOWN ∧
    c.SERVER_COMMAND_DETACH ≠ c.SERVER_COMMAND_KILL ∧
    c.SERVER_COMMAND_SHUTDOWN ≠ c.SERVER_COMMAND_KILL := by
  have h := c.distinct
  simp only [List.nodup_cons, List.mem_cons, List.mem_singleton, not_or, List.not_mem_nil,
    not_false_eq_true, List.nodup_nil, and_true] at h
  obtain ⟨⟨h1, h2, h3, h4⟩, ⟨h5, h6, h7⟩, ⟨h8, h9⟩, h10⟩ := h
  exact ⟨h1, h2, h3, h4, h5, h6, h7, h8, h9, h10⟩

/-- C8: for every command value read, `command_func` makes exactly one `read`
and then exactly one `write`, of one result code, on the command descriptor.
The code written is the result of `server_get_program_counter` for GetPC, of
`server_ptrace_continue` for Continue, of `server_ptrace_detach` for Detach,
`COMMAND_ERROR_NONE` for Shutdown and Kill, and
`COMMAND_ERROR_INVALID_COMMAND` for every other value, in which case
`shutdown` and the handle stay as they were. -/
theorem command_func_one_read_one_write {H : Type} (c : Opcodes) (ops : InferiorOps H)
    (handle : H) (fd shutdown command : Int) (write_ok : Bool) :
    (∃ r, (command_func c ops handle fd shutdown (some command) write_ok).trace
      = [ChannelEvent.read fd, ChannelEvent.write fd [Field.result r]]) ∧
    (command = c.SERVER_COMMAND_GET_PC →
      (command_func c ops handle fd shutdown (some command) write_ok).trace
        = [ChannelEvent.read fd,
           ChannelEvent.write fd [Field.result (ops.server_get_program_counter handle).1]]) ∧
    (command = c.SERVER_COMMAND_CONTINUE →
      (command_func c ops handle fd shutdown (some command) write_ok).trace
        = [ChannelEvent.read fd,
           ChannelEvent.write fd [Field.result (ops.server_ptrace_continue handle).1]]) ∧
    (command = c.SERVER_COMMAND_DETACH →
      (command_func c ops handle fd shutdown (some command) write_ok).trace
        = [ChannelEvent.read fd,
           ChannelEvent.write fd [Field.result (ops.server_ptrace_detach handle).1]]) ∧
    ((command = c.SERVER_COMMAND_SHUTDOWN ∨ command = c.SERVER_COMMAND_KILL) →
      (command_func c ops handle fd shutdown (some command) write_ok).trace
        = [ChannelEvent.read fd, ChannelEvent.write fd [Field.result COMMAND_ERROR_NONE]]) ∧
    ((command ≠ c.SERVER_COMMAND_GET_PC ∧ command ≠ c.SERVER_COMMAND_CONTINUE ∧
        command ≠ c.SERVER_COMMAND_DETACH ∧ command ≠ c.SERVER_COMMAND_SHUTDOWN ∧
        command ≠ c.SERVER_COMMAND_KILL) →
      (command_func c ops handle fd shutdown (some command) write_ok).trace
        = [ChannelEvent.read fd,
           ChannelEvent.write fd [Field.result COMMAND_ERROR_INVALID_COMMAND]] ∧
      (command_func c ops handle fd shutdown (some command) write_ok).shutdown = shutdown ∧
      (command_func c ops handle fd shutdown (some command) write_ok).handle = handle) := by
  obtain ⟨h1, h2, h3, h4, h5, h6, h7, h8, h9, h10⟩ := opcodes_ne c
  refine ⟨⟨_, rfl⟩, ?_, ?_, ?_, ?_, ?_⟩
  · intro h
    simp [command_func, h]
  · intro h
    simp [command_func, h, h1.symm]
  · intro h
    simp [command_func, h, h2.symm, h5.symm]
  · rintro (h | h)
    · simp [command_func, h, h3.symm, h6.symm, h8.symm]
    · simp [command_func, h, h4.symm, h7.symm, h9.symm, h10.symm]
  · rintro ⟨g1, g2, g3, g4, g5⟩
    simp [command_func, g1, g2, g3, g4, g5]

/-- C9 fails on the code: for a GetPC command with program counter 4096 the
only data `command_func` writes is the result code; the 64-bit argument
fetched by `server_get_program_counter` is not written. -/
theorem command_func_get_pc_drops_argument :
    (sampleOps.server_get_program_counter ()).2.1 = 4096 ∧
    (command_func sampleOpcodes sampleOps () 4 0
        (some sampleOpcodes.SERVER_COMMAND_GET_PC) true).trace
      = [ChannelEvent.read 4, ChannelEvent.write 4 [Field.result COMMAND_ERROR_NONE]] ∧
    (command_func sampleOpcodes sampleOps () 4 0
        (some sampleOpcodes.SERVER_COMMAND_GET_PC) true).trace
      ≠ [ChannelEvent.read 4,
         ChannelEvent.write 4 [Field.result COMMAND_ERROR_NONE, Field.arg64 4096]] := by
  decide

/-- C10 as stated fails for an external termination signal: after
`sigterm_handler` has run, the teardown of a spawned child (pid 100) sends
SIGKILL, not SIGTERM. -/
theorem teardown_after_sigterm_is_forceful :
    main_teardown false (sigterm_handler 0) 100 = [TeardownCall.kill 100 Signal.SIGKILL] ∧
    main_teardown false (sigterm_handler 0) 100 ≠ [TeardownCall.kill 100 Signal.SIGTERM] := by
  decide

/-- C10, amended: when the loop has ended, a session that attached only calls
`server_ptrace_detach` and sends no signal; a session that spawned sends
SIGKILL when `shutdown` was set by a Kill command or by `sigterm_handler` (the
external termination signal), and SIGTERM when it was set by a Shutdown
command (and for every value of `shutdown` other than 2). -/
theorem teardown_by_cause {H : Type} (c : Opcodes) (ops : InferiorOps H) (handle : H)
    (fd shutdown pid : Int) (write_ok : Bool) :
    (∀ sd : Int, main_teardown true sd pid = [TeardownCall.server_ptrace_detach]) ∧
    main_teardown false
        (command_func c ops handle fd shutdown (some c.SERVER_COMMAND_KILL) write_ok).shutdown
        pid
      = [TeardownCall.kill pid Signal.SIGKILL] ∧
    main_teardown false
        (command_func c ops handle fd shutdown (some c.SERVER_COMMAND_SHUTDOWN) write_ok).shutdown
        pid
      = [TeardownCall.kill pid Signal.SIGTERM] ∧
    main_teardown false (sigterm_handler shutdown) pid
      = [TeardownCall.kill pid Signal.SIGKILL] ∧
    (∀ sd : Int, sd ≠ 2 →
      main_teardown false sd pid = [TeardownCall.kill pid Signal.SIGTERM]) := by
  obtain ⟨h1, h2, h3, h4, h5, h6, h7, h8, h9, h10⟩ := opcodes_ne c
  refine ⟨fun sd => rfl, ?_, ?_, rfl, ?_⟩
  · simp [command_func, main_teardown, h4.symm, h7.symm, h9.symm, h10.symm]
  · simp [command_func, main_teardown, h3.symm, h6.symm, h8.symm]
  · intro sd hsd
    simp [main_teardown, hsd]

/-! ## The loop of `main` -/

/-- C13: `powerpc_continue`, `powerpc_step` and `powerpc_read_memory` leave the
whole handle as it was; `powerpc_dispatch_event` leaves every field of the
inferior handle but `last_signal` as it was; hence after any sequence of these
calls, on any inputs, `pid`, `task`, `thread` and `pagesize` are what they were
before. -/
theorem inferior_identity_invariant (handle : ServerHandle) (ops : List HandleOp) :
    ((apply_ops handle ops).inferior.pid = handle.inferior.pid ∧
      (apply_ops handle ops).inferior.task = handle.inferior.task ∧
      (apply_ops handle ops).inferior.thread = handle.inferior.thread ∧
      (apply_ops handle ops).inferior.pagesize = handle.inferior.pagesize) ∧
    (∀ (ESRCH : Int) (ptrace : PtraceCall → PtraceResult),
      (powerpc_continue ESRCH ptrace handle).handle = handle ∧
      (powerpc_step ESRCH ptrace handle).handle = handle) ∧
    (∀ (K : Int) (vm_read : Nat → Nat → Nat → VmReadResult) (start size : Nat)
        (buffer : List Nat),
      (powerpc_read_memory K vm_read handle start size buffer).1 = handle) ∧
    (∀ (w : WaitEncoding) (fetch : ServerHandle → ArchInfo) (status : Nat),
      (powerpc_dispatch_event w fetch handle status).handle.inferior =
        { handle.inferior with
          last_signal :=
            (powerpc_dispatch_event w fetch handle status).handle.inferior.last_signal }) := by
  have hcont : ∀ (h : ServerHandle) (E : Int) (p : PtraceCall → PtraceResult),
      (powerpc_continue E p h).handle = h := by
    intro h E p
    unfold powerpc_continue
    simp only []
    split_ifs <;> rfl
  have hstep : ∀ (h : ServerHandle) (E : Int) (p : PtraceCall → PtraceResult),
      (powerpc_step E p h).handle = h := by
    intro h E p
    unfold powerpc_step
    simp only []
    split_ifs <;> rfl
  have hdisp : ∀ (h : ServerHandle) (w : WaitEncoding) (fetch : ServerHandle → ArchInfo)
      (status : Nat),
      (powerpc_dispatch_event w fetch h status).handle.inferior =
        { h.inferior with
          last_signal := (powerpc_dispatch_event w fetch h status).handle.inferior.last_signal } := by
    intro h w fetch status
    unfold powerpc_dispatch_event powerpc_arch_get_registers
    simp only []
    split_ifs <;> rfl
  have hone : ∀ (op : HandleOp) (h : ServerHandle),
      (op.apply h).inferior.pid = h.inferior.pid ∧
      (op.apply h).inferior.task = h.inferior.task ∧
      (op.apply h).inferior.thread = h.inferior.thread ∧
      (op.apply h).inferior.pagesize = h.inferior.pagesize := by
    intro op h
    cases op with
    | op_dispatch_event w fetch status =>
      simp only [HandleOp.apply]
      rw [hdisp h w fetch status]
      exact ⟨rfl, rfl, rfl, rfl⟩
    | op_continue E p =>
      have e : HandleOp.apply h (HandleOp.op_continue E p) = h := hcont h E p
      rw [e]
      exact ⟨rfl, rfl, rfl, rfl⟩
    | op_step E p =>
      have e : HandleOp.apply h (HandleOp.op_step E p) = h := hstep h E p
      rw [e]
      exact ⟨rfl, rfl, rfl, rfl⟩
    | op_read_memory K v s n b => exact ⟨rfl, rfl, rfl, rfl⟩
  refine ⟨?_, fun E p => ⟨hcont handle E p, hstep handle E p⟩, fun _ _ _ _ _ => rfl,
    hdisp handle⟩
  unfold apply_ops
  induction ops generalizing handle with
  | nil => exact ⟨rfl, rfl, rfl, rfl⟩
  | cons op rest ih =>
    rw [List.foldl_cons]
    obtain ⟨a1, a2, a3, a4⟩ := ih (op.apply handle)
    obtain ⟨b1, b2, b3, b4⟩ := hone op handle
    exact ⟨a1.trans b1, a2.trans b2, a3.trans b3, a4.trans b4⟩

/-! ## The method-load callbacks -/

theorem remove_method_load_loop_ends (heap : Nat → MethodLoadCallback) (index : Int) :
    ∀ (fuel i : Nat) (array : List Nat), array.length - i < fuel →
      ∃ r, remove_method_load_loop heap index fuel i array = some r := by
  intro fuel
  induction fuel with
  | zero => intro i array h; omega
  | succ fuel ih =>
    intro i array h
    unfold remove_method_load_loop
    cases hi : array[i]? with
    | none => exact ⟨array, rfl⟩
    | some info =>
      have hlt : i < array.length := by
        rcases List.getElem?_eq_some_iff.mp hi with ⟨hlt, -⟩
        exact hlt
      simp only []
      split_ifs
      · exact ih (i + 1) array (by omega)
      · have hle : (g_ptr_array_remove array info).length ≤ array.length := by
          unfold g_ptr_array_remove
          exact (List.erase_sublist info array).length_le
        exact ih (i + 1) _ (by omega)

theorem remove_method_load_callback_returns (index : Int) (st : CallbackState) :
    ∃ st2, mono_debugger_remove_method_load_callback index st = some st2 := by
  unfold mono_debugger_remove_method_load_callback
  cases h : st.method_load_callbacks with
  | none => exact ⟨st, rfl⟩
  | some array =>
    obtain ⟨r, hr⟩ := remove_method_load_loop_ends st.heap index (array.length + 1) 0 array
      (by omega)
    simp only [hr]
    exact ⟨_, rfl⟩

/-- C14 fails on the code: with two callbacks of index 7 registered one after
the other, followed by one of index 8, `mono_debugger_remove_method_load_callback
(7)` removes the first only; the second (the record at 2000) is skipped and a
callback with index 7 remains. -/
theorem remove_method_load_callback_skips_adjacent :
    callback_indices threeCallbacks = [7, 7, 8] ∧
    (mono_debugger_remove_method_load_callback 7 threeCallbacks).map
      (fun st => st.method_load_callbacks) = some (some [2000, 3000]) ∧
    (mono_debugger_remove_method_load_callback 7 threeCallbacks).map callback_indices
      = some [7, 8] := by
  decide

end Debugger
